import Mathlib

/-!
Verification of the wolfies message-gateway core against its specification.

The development shallowly embeds two components of the repository:

* the content decoder (`src/db/blob_parser.rs`): byte blobs are `List Nat`
  (each element a byte value < 256 in intent), Rust `String`s produced by the
  decoder are modelled as their UTF-8 byte lists;
* the daemon protocol / service / server core
  (`src/daemon/{protocol,service,server}.rs`) together with the timestamp
  helpers (`src/db/{queries,helpers}.rs`).

External collaborators (the `plist` crate, serde_json's text parser, the
SQLite row source, the contact table, the process clock) are modelled as
explicit function parameters, so every embedded repository function stays
executable and the repository logic itself is transcribed from the source.

Modelling conventions, noted where they matter:
* Rust `str::trim` removes Unicode `White_Space` characters; the model
  restricts to the ASCII whitespace subset (0x09-0x0D, 0x20), which agrees
  with Rust on every input appearing in the claims and does not affect the
  trim-fixpoint results proved here.
* `String::from_utf8_lossy` is modelled byte-accurately, replacing each
  maximal invalid subpart with U+FFFD (bytes EF BF BD), as Rust does.
-/

set_option maxHeartbeats 1000000

namespace WEF

/-- UTF-8 byte list of an ASCII string literal (all literals used are ASCII,
where codepoint = byte). -/
def strBytes (s : String) : List Nat := s.toList.map Char.toNat

/-- ASCII whitespace bytes (the ASCII subset of Rust `char::is_whitespace`). -/
def wsByte (b : Nat) : Bool :=
  b == 0x09 || b == 0x0A || b == 0x0B || b == 0x0C || b == 0x0D || b == 0x20

/-- Model of Rust `str::trim`: drop whitespace from both ends. -/
def trimBytes (s : List Nat) : List Nat :=
  ((s.dropWhile wsByte).reverse.dropWhile wsByte).reverse

/-- Model of `find_subsequence` (blob_parser.rs lines 44-48): the first
window position at which the needle occurs, via `windows(len).position`. -/
def find_subsequence (haystack needle : List Nat) : Option Nat :=
  (List.range (haystack.length + 1 - needle.length)).find?
    (fun i => (haystack.drop i).take needle.length == needle)

/-- UTF-8 continuation byte. -/
def utf8Cont (b : Nat) : Bool := 0x80 ≤ b && b ≤ 0xBF

/-- Strict UTF-8 validity of a byte list (model of `String::from_utf8`
succeeding). -/
def utf8Valid : List Nat → Bool
  | [] => true
  | b :: rest =>
    if b ≤ 0x7F then utf8Valid rest
    else if 0xC2 ≤ b && b ≤ 0xDF then
      match rest with
      | c1 :: r => utf8Cont c1 && utf8Valid r
      | [] => false
    else if b == 0xE0 then
      match rest with
      | c1 :: c2 :: r => (0xA0 ≤ c1 && c1 ≤ 0xBF) && utf8Cont c2 && utf8Valid r
      | _ => false
    else if (0xE1 ≤ b && b ≤ 0xEC) || b == 0xEE || b == 0xEF then
      match rest with
      | c1 :: c2 :: r => utf8Cont c1 && utf8Cont c2 && utf8Valid r
      | _ => false
    else if b == 0xED then
      match rest with
      | c1 :: c2 :: r => (0x80 ≤ c1 && c1 ≤ 0x9F) && utf8Cont c2 && utf8Valid r
      | _ => false
    else if b == 0xF0 then
      match rest with
      | c1 :: c2 :: c3 :: r =>
        (0x90 ≤ c1 && c1 ≤ 0xBF) && utf8Cont c2 && utf8Cont c3 && utf8Valid r
      | _ => false
    else if 0xF1 ≤ b && b ≤ 0xF3 then
      match rest with
      | c1 :: c2 :: c3 :: r =>
        utf8Cont c1 && utf8Cont c2 && utf8Cont c3 && utf8Valid r
      | _ => false
    else if b == 0xF4 then
      match rest with
      | c1 :: c2 :: c3 :: r =>
        (0x80 ≤ c1 && c1 ≤ 0x8F) && utf8Cont c2 && utf8Cont c3 && utf8Valid r
      | _ => false
    else false

/-- UTF-8 encoding of U+FFFD, the replacement character. -/
def fffd : List Nat := [0xEF, 0xBF, 0xBD]

/-- Model of `String::from_utf8_lossy` as a byte-list transformer: valid
sequences are kept, each maximal invalid subpart becomes U+FFFD. -/
def lossyDecode : List Nat → List Nat
  | [] => []
  | b :: rest =>
    if b ≤ 0x7F then b :: lossyDecode rest
    else if 0xC2 ≤ b && b ≤ 0xDF then
      match rest with
      | c1 :: r =>
        if utf8Cont c1 then b :: c1 :: lossyDecode r
        else fffd ++ lossyDecode (c1 :: r)
      | [] => fffd
    else if b == 0xE0 then
      match rest with
      | c1 :: r =>
        if 0xA0 ≤ c1 && c1 ≤ 0xBF then
          match r with
          | c2 :: r2 =>
            if utf8Cont c2 then b :: c1 :: c2 :: lossyDecode r2
            else fffd ++ lossyDecode (c2 :: r2)
          | [] => fffd
        else fffd ++ lossyDecode (c1 :: r)
      | [] => fffd
    else if (0xE1 ≤ b && b ≤ 0xEC) || b == 0xEE || b == 0xEF then
      match rest with
      | c1 :: r =>
        if utf8Cont c1 then
          match r with
          | c2 :: r2 =>
            if utf8Cont c2 then b :: c1 :: c2 :: lossyDecode r2
            else fffd ++ lossyDecode (c2 :: r2)
          | [] => fffd
        else fffd ++ lossyDecode (c1 :: r)
      | [] => fffd
    else if b == 0xED then
      match rest with
      | c1 :: r =>
        if 0x80 ≤ c1 && c1 ≤ 0x9F then
          match r with
          | c2 :: r2 =>
            if utf8Cont c2 then b :: c1 :: c2 :: lossyDecode r2
            else fffd ++ lossyDecode (c2 :: r2)
          | [] => fffd
        else fffd ++ lossyDecode (c1 :: r)
      | [] => fffd
    else if b == 0xF0 then
      match rest with
      | c1 :: r =>
        if 0x90 ≤ c1 && c1 ≤ 0xBF then
          match r with
          | c2 :: r2 =>
            if utf8Cont c2 then
              match r2 with
              | c3 :: r3 =>
                if utf8Cont c3 then b :: c1 :: c2 :: c3 :: lossyDecode r3
                else fffd ++ lossyDecode (c3 :: r3)
              | [] => fffd
            else fffd ++ lossyDecode (c2 :: r2)
          | [] => fffd
        else fffd ++ lossyDecode (c1 :: r)
      | [] => fffd
    else if 0xF1 ≤ b && b ≤ 0xF3 then
      match rest with
      | c1 :: r =>
        if utf8Cont c1 then
          match r with
          | c2 :: r2 =>
            if utf8Cont c2 then
              match r2 with
              | c3 :: r3 =>
                if utf8Cont c3 then b :: c1 :: c2 :: c3 :: lossyDecode r3
                else fffd ++ lossyDecode (c3 :: r3)
              | [] => fffd
            else fffd ++ lossyDecode (c2 :: r2)
          | [] => fffd
        else fffd ++ lossyDecode (c1 :: r)
      | [] => fffd
    else if b == 0xF4 then
      match rest with
      | c1 :: r =>
        if 0x80 ≤ c1 && c1 ≤ 0x8F then
          match r with
          | c2 :: r2 =>
            if utf8Cont c2 then
              match r2 with
              | c3 :: r3 =>
                if utf8Cont c3 then b :: c1 :: c2 :: c3 :: lossyDecode r3
                else fffd ++ lossyDecode (c3 :: r3)
              | [] => fffd
            else fffd ++ lossyDecode (c2 :: r2)
          | [] => fffd
        else fffd ++ lossyDecode (c1 :: r)
      | [] => fffd
    else fffd ++ lossyDecode rest

/-- Model of `try_decode_text` (blob_parser.rs lines 180-197): strict UTF-8,
then lossy; the trimmed text is returned when non-empty. -/
def try_decode_text (bytes : List Nat) : Option (List Nat) :=
  if utf8Valid bytes && !(trimBytes bytes).isEmpty then some (trimBytes bytes)
  else
    let t := trimBytes (lossyDecode bytes)
    if !t.isEmpty then some t else none

/-- Model of `extract_until_control` (blob_parser.rs lines 159-177). -/
def extract_until_control : List Nat → List Nat
  | [] => []
  | b :: rest =>
    if b == 0x86 || b == 0x84 || b == 0x00 then []
    else if b == 0x69 && (rest.head? == some 0x49 || rest.head? == some 0x4E) then []
    else b :: extract_until_control rest

/-- Method 1 of `parse_streamtyped` (blob_parser.rs lines 119-137): the
`NSString` attempt, with the `plus_offset < 20` window bound. -/
def streamtyped_method1 (blob : List Nat) : Option (List Nat) :=
  match find_subsequence blob (strBytes "NSString") with
  | some nsstring_idx =>
    match find_subsequence (blob.drop nsstring_idx) (strBytes "+") with
    | some plus_offset =>
      if plus_offset < 20 then
        -- text_start_abs = nsstring_idx + plus_offset + 2, inlined
        if nsstring_idx + plus_offset + 2 < blob.length then
          match try_decode_text (extract_until_control (blob.drop (nsstring_idx + plus_offset + 2))) with
          | some text => if !text.isEmpty then some text else none
          | none => none
        else none
      else none
    | none => none
  | none => none

/-- Method 2 of `parse_streamtyped` (blob_parser.rs lines 139-153): the
`NSMutableString` attempt, which has no window bound in the source. -/
def streamtyped_method2 (blob : List Nat) : Option (List Nat) :=
  match find_subsequence blob (strBytes "NSMutableString") with
  | some nsmut_idx =>
    match find_subsequence (blob.drop nsmut_idx) (strBytes "+") with
    | some plus_offset =>
      -- text_start_abs = nsmut_idx + plus_offset + 2, inlined
      if nsmut_idx + plus_offset + 2 < blob.length then
        match try_decode_text (extract_until_control (blob.drop (nsmut_idx + plus_offset + 2))) with
        | some text => if !text.isEmpty then some text else none
        | none => none
      else none
    | none => none
  | none => none

/-- Model of `parse_streamtyped` (blob_parser.rs lines 118-156): every
failure inside method 1 falls through to method 2, as in the source. -/
def parse_streamtyped (blob : List Nat) : Option (List Nat) :=
  match streamtyped_method1 blob with
  | some text => some text
  | none => streamtyped_method2 blob

/-- The metadata substrings skipped by the heuristic fallback
(blob_parser.rs lines 206-216). -/
def skip_patterns : List (List Nat) :=
  [strBytes "NSString", strBytes "NSObject", strBytes "NSMutable",
   strBytes "NSDictionary", strBytes "NSAttributed", strBytes "streamtyped",
   strBytes "__kIM", strBytes "NSNumber", strBytes "NSValue"]

/-- `ch.is_ascii_graphic() || ch == ' '` of the heuristic fallback.  The
source iterates over the chars of the lossily decoded string; a byte-level
scan over the decoded bytes is equivalent because every char kept in a run
is ASCII (one byte) and every byte of a non-ASCII char fails this test. -/
def runByte (b : Nat) : Bool := (0x21 ≤ b && b ≤ 0x7E) || b == 0x20

/-- Rust `str::contains` for our byte strings. -/
def containsSub (l p : List Nat) : Bool := (find_subsequence l p).isSome

/-- Rust `str::trim_matches` with the pattern char `'+'`. -/
def trimMatchesPlus (s : List Nat) : List Nat :=
  ((s.dropWhile (· == 0x2B)).reverse.dropWhile (· == 0x2B)).reverse

/-- One flush of `current_run` against `best_candidate`
(blob_parser.rs lines 226-237 and the identical final-run check). -/
def considerRun (best : Option (List Nat)) (run : List Nat) : Option (List Nat) :=
  if 3 ≤ run.length then
    if skip_patterns.any (fun p => containsSub run p) then best
    else
      let cleaned := trimBytes (trimMatchesPlus run)
      if 2 ≤ cleaned.length then
        match best with
        | some b => if b.length < cleaned.length then some cleaned else best
        | none => some cleaned
      else best
  else best

/-- The run-scanning loop of `extract_readable_text`
(blob_parser.rs lines 219-253). -/
def scanRuns (best : Option (List Nat)) (cur : List Nat) : List Nat → Option (List Nat)
  | [] => considerRun best cur
  | b :: rest =>
    if runByte b then scanRuns best (cur ++ [b]) rest
    else scanRuns (considerRun best cur) [] rest

/-- Model of `extract_readable_text` (blob_parser.rs lines 202-256). -/
def extract_readable_text (blob : List Nat) : Option (List Nat) :=
  scanRuns none [] (lossyDecode blob)

/-- The subset of `plist::Value` distinguished by `parse_bplist`: strings,
data, arrays, dictionaries; every other variant is `pother` (the source
treats them all with `_ => {}`). -/
inductive PValue where
  | pstring : List Nat → PValue
  | pdata : List Nat → PValue
  | parray : List PValue → PValue
  | pdict : List (List Nat × PValue) → PValue
  | pother : PValue

/-- `plist::Dictionary::get`: first entry with the given key, in insertion
order. -/
def pDictGet : List (List Nat × PValue) → List Nat → Option PValue
  | [], _ => none
  | (k, v) :: rest, key => if k = key then some v else pDictGet rest key

/-- The candidate-collection loop over the `$objects` array
(blob_parser.rs lines 61-88): plain strings not starting with `NS`/`$`,
`NS.string` wrappers, and UTF-8-decodable `NS.bytes` payloads. -/
def collectCandidates : List PValue → List (List Nat)
  | [] => []
  | obj :: rest =>
    (match obj with
     | .pstring s =>
       if !((strBytes "NS").isPrefixOf s) && !([0x24].isPrefixOf s) && !s.isEmpty
       then [s] else []
     | .pdict d =>
       (match pDictGet d (strBytes "NS.string") with
        | some (.pstring s) => [s]
        | _ => []) ++
       (match pDictGet d (strBytes "NS.bytes") with
        | some (.pdata data) => if utf8Valid data then [data] else []
        | _ => [])
     | _ => []) ++ collectCandidates rest

/-- The first candidate whose trim is non-empty, returned trimmed
(blob_parser.rs lines 91-96). -/
def firstNonBlank : List (List Nat) → Option (List Nat)
  | [] => none
  | t :: rest =>
    if !(trimBytes t).isEmpty then some (trimBytes t) else firstNonBlank rest

/-- The top-level fallback scan over dictionary values
(blob_parser.rs lines 100-106): the first non-empty string value not
starting with `NS`, returned untrimmed. -/
def dictFallback : List (List Nat × PValue) → Option (List Nat)
  | [] => none
  | (_, v) :: rest =>
    match v with
    | .pstring s =>
      if !s.isEmpty && !((strBytes "NS").isPrefixOf s) then some s
      else dictFallback rest
    | _ => dictFallback rest

/-- Model of `parse_bplist` (blob_parser.rs lines 53-110), parameterised by
the external `plist::from_bytes` parser. -/
def parse_bplist (fromBytes : List Nat → Except Unit PValue) (blob : List Nat) :
    Except Unit (Option (List Nat)) :=
  match fromBytes blob with
  | .error e => .error e
  | .ok v =>
    match v with
    | .pdict dict =>
      match pDictGet dict (strBytes "$objects") with
      | some (.parray objects) =>
        match firstNonBlank (collectCandidates objects) with
        | some text => .ok (some text)
        | none => .ok (dictFallback dict)
      | _ => .ok (dictFallback dict)
    | _ => .ok none

/-- Strategies 2 and 3 of `extract_text_from_blob` (blob_parser.rs lines
34-40): the stream-typed attempt, then the heuristic fallback. -/
def extract_fallbacks (blob : List Nat) : Except Unit (Option (List Nat)) :=
  match parse_streamtyped blob with
  | some text => .ok (some text)
  | none => .ok (extract_readable_text blob)

/-- Model of `extract_text_from_blob` (blob_parser.rs lines 22-41),
parameterised by the external bplist parser.  A successful non-`None`
keyed-archive parse returns immediately; anything else (no `bplist` marker,
parse error, or `Ok(None)`) falls through to the remaining strategies. -/
def extract_text_from_blob (fromBytes : List Nat → Except Unit PValue)
    (blob : List Nat) : Except Unit (Option (List Nat)) :=
  if blob.isEmpty then .ok none
  else
    match find_subsequence blob (strBytes "bplist") with
    | some bplist_start =>
      match parse_bplist fromBytes (blob.drop bplist_start) with
      | .ok (some text) => .ok (some text)
      | _ => extract_fallbacks blob
    | none => extract_fallbacks blob

/-- Whether the keyed-archive strategy is the one that produces the overall
result: a `bplist` marker is found and parsing from it yields text. -/
def bplistProduced (fromBytes : List Nat → Except Unit PValue)
    (blob : List Nat) : Bool :=
  match find_subsequence blob (strBytes "bplist") with
  | some bplist_start =>
    match parse_bplist fromBytes (blob.drop bplist_start) with
    | .ok (some _) => true
    | _ => false
  | none => false

/-- The synthetic stream-typed blob of the claim (and of the source's own
`test_streamtyped_nsstring` test): `"streamtyped"` header, `NSString`
marker, control bytes, `'+'`, one length byte, `"Hello"`, end markers. -/
def c7blob : List Nat :=
  strBytes "streamtyped" ++ strBytes "NSString" ++
  [0x01, 0x94, 0x84, 0x01, 0x2B, 0x05] ++ strBytes "Hello" ++ [0x86, 0x84]

/-- A bplist-parser outcome corresponding to a binary plist that encodes the
dictionary `{"a": " x "}` — a value the real `plist` crate can return (any
dictionary with arbitrary string values is expressible as a bplist). -/
def fbWs : List Nat → Except Unit PValue :=
  fun _ => .ok (.pdict [(strBytes "a", .pstring (strBytes " x "))])

/-- A bplist-parser outcome corresponding to a keyed archive whose
`$objects` table contains the plain string `"Hi!"`. -/
def fbHi : List Nat → Except Unit PValue :=
  fun _ => .ok (.pdict [(strBytes "$objects", .parray [.pstring (strBytes "Hi!")])])

/-- A blob carrying both a `bplist` marker and a valid stream-typed
payload. -/
def c6blob : List Nat := strBytes "bplist" ++ c7blob

/-! ### Protocol, service and server embedding -/

/-- JSON values as handled by serde_json, at the value level.  Numbers are
restricted to integers: every numeric field of the protocol and of the
claims is integral (`server_ms`, the only `f64`, is carried as an abstract
integer since no claim depends on its value, and serde_json's text round
trip of finite floats is lossless anyway). -/
inductive Json where
  | null : Json
  | bool : Bool → Json
  | num : Int → Json
  | str : String → Json
  | arr : List Json → Json
  | obj : List (String × Json) → Json

/-- Lookup in a JSON object / parameter map. -/
def jGet : List (String × Json) → String → Option Json
  | [], _ => none
  | (k, v) :: rest, key => if k = key then some v else jGet rest key

/-- serde_json `Value::as_u64`: `Some` exactly for non-negative integral
numbers (in the integral model; a negative number, or any non-number —
string, bool, null, array, object — gives `None`). -/
def jAsU64 : Json → Option Nat
  | .num n => if 0 ≤ n then some n.toNat else none
  | _ => none

/-- `Request` (protocol.rs lines 11-21). -/
structure Request where
  id : String
  v : Nat
  method : String
  params : List (String × Json)

/-- `ErrorInfo` (protocol.rs lines 39-47). -/
structure ErrorInfo where
  code : String
  message : String
  details : Option Json

/-- `ResponseMeta` (protocol.rs lines 50-56); `server_ms` is `f64` in the
source, modelled as an integer (no claim depends on its value). -/
structure ResponseMeta where
  server_ms : Int
  protocol_v : Nat

/-- `Response` (protocol.rs lines 24-36). -/
structure Response where
  id : String
  ok : Bool
  result : Option Json
  error : Option ErrorInfo
  meta : ResponseMeta

/-- `Response::success` (protocol.rs lines 66-78). -/
def Response.success (id : String) (result : Json) (server_ms : Int) : Response :=
  { id := id, ok := true, result := some result, error := none,
    meta := { server_ms := server_ms, protocol_v := 1 } }

/-- `Response::error` (protocol.rs lines 80-96); named `errorResponse` here
only because `Response.error` is taken by the field projection. -/
def Response.errorResponse (id : String) (code : String) (message : String)
    (server_ms : Int) : Response :=
  { id := id, ok := false, result := none,
    error := some { code := code, message := message, details := none },
    meta := { server_ms := server_ms, protocol_v := 1 } }

/-- serde serialization of `ErrorInfo` to a JSON value (`Option` fields
serialize as `null` when `None`). -/
def ErrorInfo.toJson (e : ErrorInfo) : Json :=
  .obj [("code", .str e.code), ("message", .str e.message),
        ("details", match e.details with | some d => d | none => .null)]

/-- serde serialization of `Response`, as performed by `to_ndjson_line`
(protocol.rs lines 99-102), at the JSON value level: `serde_json`'s
text encoding and parsing are mutually inverse on values, so the NDJSON
line round trip is the value round trip. -/
def Response.toJson (r : Response) : Json :=
  .obj [("id", .str r.id), ("ok", .bool r.ok),
        ("result", match r.result with | some v => v | none => .null),
        ("error", match r.error with | some e => e.toJson | none => .null),
        ("meta", .obj [("server_ms", .num r.meta.server_ms),
                       ("protocol_v", .num (r.meta.protocol_v : Int))])]

/-- serde deserialization of an `Option<_>` struct field: both a missing
field and an explicit `null` give `None`. -/
def decodeOptField (fields : List (String × Json)) (key : String) : Option Json :=
  match jGet fields key with
  | none => none
  | some .null => none
  | some v => some v

/-- serde deserialization of `ErrorInfo`. -/
def ErrorInfo.fromJson : Json → Except Unit ErrorInfo
  | .obj fields =>
    match jGet fields "code", jGet fields "message" with
    | some (.str c), some (.str m) =>
      .ok { code := c, message := m, details := decodeOptField fields "details" }
    | _, _ => .error ()
  | _ => .error ()

/-- serde deserialization of `ResponseMeta` (`protocol_v` is `u8`, so a
negative number is rejected). -/
def ResponseMeta.fromJson : Json → Except Unit ResponseMeta
  | .obj fields =>
    match jGet fields "server_ms", jGet fields "protocol_v" with
    | some (.num ms), some (.num pv) =>
      if 0 ≤ pv then .ok { server_ms := ms, protocol_v := pv.toNat }
      else .error ()
    | _, _ => .error ()
  | _ => .error ()

/-- serde deserialization of `Response` from a JSON value (the decode half
of the NDJSON codec). -/
def Response.fromJson : Json → Except Unit Response
  | .obj fields =>
    match jGet fields "id", jGet fields "ok" with
    | some (.str rid), some (.bool rok) =>
      match jGet fields "meta" with
      | some mjson =>
        match ResponseMeta.fromJson mjson with
        | .ok meta =>
          match decodeOptField fields "error" with
          | some ejson =>
            match ErrorInfo.fromJson ejson with
            | .ok e => .ok { id := rid, ok := rok,
                             result := decodeOptField fields "result",
                             error := some e, meta := meta }
            | .error u => .error u
          | none => .ok { id := rid, ok := rok,
                          result := decodeOptField fields "result",
                          error := none, meta := meta }
        | .error u => .error u
      | none => .error ()
    | _, _ => .error ()
  | _ => .error ()

/-- A message row as produced by `query_recent_messages`
(`RecentMessage`, helpers.rs lines 26-31). -/
structure RecentMessage where
  text : Option String
  date : String
  is_from_me : Bool
  phone : String

/-- A contact (contacts/manager.rs lines 48-55), restricted to the fields
the daemon handlers read. -/
structure Contact where
  name : String
  phone : String

/-- The daemon's warm state (`DaemonService`, service.rs lines 20-24)
together with its external collaborators, passed as capabilities:
`queryRecent` is `helpers::query_recent_messages` on the hot connection,
`find_by_phone` the cached contact lookup, `nowSecs` the process clock
read by `days_ago_cocoa`, `pid`/`started_at`/`contactsLoaded` the values
read by `health`.  The seven handlers whose bodies no claim touches are
abstract capabilities returning their JSON result. -/
structure DaemonService where
  pid : Nat
  started_at : String
  contactsLoaded : Nat
  nowSecs : Nat
  find_by_phone : String → Option Contact
  queryRecent : Int → Nat → Except String (List RecentMessage)
  analyticsH : List (String × Json) → Except String Json
  followupH : List (String × Json) → Except String Json
  unreadH : List (String × Json) → Except String Json
  discoverH : List (String × Json) → Except String Json
  unknownH : List (String × Json) → Except String Json
  handlesH : List (String × Json) → Except String Json
  bundleH : List (String × Json) → Except String Json

/-- `COCOA_EPOCH_OFFSET` (queries.rs line 423): 2001-01-01 in Unix time. -/
def COCOA_EPOCH_OFFSET : Int := 978307200

/-- `days_ago_cocoa` (queries.rs lines 431-443), with the process clock
explicit; `u64::saturating_sub` is `Nat` subtraction. -/
def days_ago_cocoa (nowSecs : Nat) (days : Nat) : Int :=
  (((nowSecs - days * 86400 : Nat) : Int) - COCOA_EPOCH_OFFSET) * 1000000000

/-- `DaemonService::health` (service.rs lines 68-75). -/
def DaemonService.health (svc : DaemonService) : Except String Json :=
  .ok (.obj [("pid", .num (svc.pid : Int)),
             ("started_at", .str svc.started_at),
             ("version", .str "v1"),
             ("contacts_loaded", .num (svc.contactsLoaded : Int))])

/-- The `days` extraction of `DaemonService::recent` (service.rs lines
84-87): `as_u64` with default 7, then the truncating `as u32` cast. -/
def recentDays (params : List (String × Json)) : Nat :=
  (((jGet params "days").bind jAsU64).getD 7) % 2 ^ 32

/-- The `limit` extraction of `DaemonService::recent` (service.rs lines
88-91): `as_u64` with default 20, then the truncating `as u32` cast. -/
def recentLimit (params : List (String × Json)) : Nat :=
  (((jGet params "limit").bind jAsU64).getD 20) % 2 ^ 32

/-- One enriched message of the `recent` handler (service.rs lines
99-111). -/
def enrichMessage (svc : DaemonService) (msg : RecentMessage) : Json :=
  .obj [("text", match msg.text with | some t => .str t | none => .null),
        ("date", .str msg.date),
        ("is_from_me", .bool msg.is_from_me),
        ("phone", .str msg.phone),
        ("contact_name",
          match (svc.find_by_phone msg.phone).map (fun c => c.name) with
          | some n => .str n
          | none => .null)]

/-- `DaemonService::recent` (service.rs lines 83-119). -/
def DaemonService.recent (svc : DaemonService)
    (params : List (String × Json)) : Except String Json :=
  let days := recentDays params
  let limit := recentLimit params
  let cutoff_cocoa := days_ago_cocoa svc.nowSecs days
  match svc.queryRecent cutoff_cocoa limit with
  | .error e => .error e
  | .ok messages =>
    let enriched := messages.map (enrichMessage svc)
    .ok (.obj [("messages", .arr enriched),
               ("count", .num (enriched.length : Int)),
               ("days", .num (days : Int))])

/-- The nine recognized method names of `dispatch`
(service.rs lines 49-58). -/
def knownMethods : List String :=
  ["health", "analytics", "followup", "recent", "unread", "discover",
   "unknown", "handles", "bundle"]

/-- `DaemonService::dispatch` (service.rs lines 44-61).  A total function:
the unknown-method arm returns an error value (`anyhow!("Unknown method:
{}")`), never a panic. -/
def DaemonService.dispatch (svc : DaemonService) (method : String)
    (params : List (String × Json)) : Except String Json :=
  match method with
  | "health" => svc.health
  | "analytics" => svc.analyticsH params
  | "followup" => svc.followupH params
  | "recent" => svc.recent params
  | "unread" => svc.unreadH params
  | "discover" => svc.discoverH params
  | "unknown" => svc.unknownH params
  | "handles" => svc.handlesH params
  | "bundle" => svc.bundleH params
  | _ => .error ("Unknown method: " ++ method)

/-- The `line.trim().is_empty()` test of server.rs line 82: the trimmed
line is empty exactly when every character is whitespace (stated this way
because it is directly executable; ASCII whitespace, as for `trimBytes`). -/
def lineIsBlank (line : String) : Bool :=
  line.toList.all (fun c => c.isWhitespace)

/-- `handle_connection` (server.rs lines 72-112), driven by the line read
from the socket, with `Request::from_ndjson_line` (serde_json's text
parser) as an explicit capability and the elapsed-time clock as a value.
`.ok none` is the silent empty-line no-op (lines 82-84); `.error` models
the `?`-propagated failure at line 89 — the connection is closed and
nothing is written; `.ok (some r)` is a written response line. -/
def handle_connection (parseRequest : String → Except Unit Request)
    (svc : DaemonService) (server_ms : Int) (line : String) :
    Except Unit (Option Response) :=
  if lineIsBlank line then .ok none
  else
    match parseRequest line with
    | .error u => .error u
    | .ok request =>
      match svc.dispatch request.method request.params with
      | .ok result => .ok (some (Response.success request.id result server_ms))
      | .error e =>
        .ok (some (Response.errorResponse request.id "ERROR" e server_ms))

/-- The sequential accept loop of `DaemonServer::serve` (server.rs lines
54-66) over a finite trace of connections: connections are handled one at
a time against the same immutable service state; an `Err` from
`handle_connection` is logged (line 59) and the loop continues. -/
def serveConnections (parseRequest : String → Except Unit Request)
    (svc : DaemonService) (server_ms : Int) (lines : List String) :
    List (Except Unit (Option Response)) :=
  lines.map (handle_connection parseRequest svc server_ms)

/-- Best-effort id salvage from a raw request line: scan for the substring
`"id":"` and read up to the next quote.  The server source contains no such
logic; this definition only makes the claim's premise — "a request id can
be salvaged from the line" — concrete. -/
def salvageChars : List Char → Option (List Char)
  | [] => none
  | c :: rest =>
    if ("\x22id\x22:\x22".toList).isPrefixOf (c :: rest) then
      some (((c :: rest).drop 6).takeWhile (fun ch => ch ≠ '\x22'))
    else salvageChars rest

/-- String-level wrapper of `salvageChars`. -/
def salvageId (line : String) : Option String :=
  (salvageChars line.toList).map (fun cs => String.mk cs)

/-- A concrete service instantiation for witnesses: fixed health data, a
row source that returns no rows, abstract handlers that fail like a failing
row source. -/
def svcDemo : DaemonService :=
  { pid := 4242
    started_at := "2026-01-10T00:00:00+00:00"
    contactsLoaded := 3
    nowSecs := 1767139200
    find_by_phone := fun _ => none
    queryRecent := fun _ _ => .ok []
    analyticsH := fun _ => .error "row source failure"
    followupH := fun _ => .error "row source failure"
    unreadH := fun _ => .error "row source failure"
    discoverH := fun _ => .error "row source failure"
    unknownH := fun _ => .error "row source failure"
    handlesH := fun _ => .error "row source failure"
    bundleH := fun _ => .error "row source failure" }

/-- A valid NDJSON health request line, id `"1"`. -/
def lineHealth : String :=
  "\x7b\"id\":\"1\",\"v\":1,\"method\":\"health\",\"params\":\x7b\x7d\x7d"

/-- A valid NDJSON request line for an unrecognized method, id `"2"`. -/
def lineUnknown : String :=
  "\x7b\"id\":\"2\",\"v\":1,\"method\":\"no-such-method\",\"params\":\x7b\x7d\x7d"

/-- A valid NDJSON analytics request line, id `"3"`. -/
def lineAnalytics : String :=
  "\x7b\"id\":\"3\",\"v\":1,\"method\":\"analytics\",\"params\":\x7b\x7d\x7d"

/-- A second valid NDJSON health request line, id `"4"`. -/
def lineHealth4 : String :=
  "\x7b\"id\":\"4\",\"v\":1,\"method\":\"health\",\"params\":\x7b\x7d\x7d"

/-- A malformed request line: the bare identifier `health` makes it invalid
JSON, yet it visibly carries the id `"42"`. -/
def lineMalformed : String :=
  "\x7b\"id\":\"42\",\"v\":1,\"method\":health\x7d"

/-- The behaviour of `Request::from_ndjson_line` (serde_json's parser) on
the five lines above: the four well-formed lines parse to their requests,
and `lineMalformed` — like every other non-JSON string — is rejected. -/
def parseDemo : String → Except Unit Request := fun line =>
  if line = lineHealth then
    .ok { id := "1", v := 1, method := "health", params := [] }
  else if line = lineUnknown then
    .ok { id := "2", v := 1, method := "no-such-method", params := [] }
  else if line = lineAnalytics then
    .ok { id := "3", v := 1, method := "analytics", params := [] }
  else if line = lineHealth4 then
    .ok { id := "4", v := 1, method := "health", params := [] }
  else .error ()

/-! ### Timestamp conversion embedding -/

/-- `cocoa_to_unix` (queries.rs lines 426-428); Rust `i64` division
truncates toward zero, i.e. `Int.tdiv`. -/
def cocoa_to_unix (cocoa_ns : Int) : Int :=
  cocoa_ns.tdiv 1000000000 + COCOA_EPOCH_OFFSET

/-- Days-to-civil-date on the proleptic Gregorian calendar, for days since
1970-01-01 (models chrono's `DateTime<Utc>` date computation, which
`cocoa_to_iso` reaches only with non-negative Unix times). -/
def civilFromDays (z0 : Nat) : Nat × Nat × Nat :=
  let z := z0 + 719468
  let era := z / 146097
  let doe := z % 146097
  let yoe := (doe - doe / 1460 + doe / 36524 - doe / 146096) / 365
  let y := yoe + era * 400
  let doy := doe - (365 * yoe + yoe / 4 - yoe / 100)
  let mp := (5 * doy + 2) / 153
  let d := doy - (153 * mp + 2) / 5 + 1
  let m := if mp < 10 then mp + 3 else mp - 9
  (if m ≤ 2 then y + 1 else y, m, d)

/-- Two-digit zero-padded decimal. -/
def pad2 (n : Nat) : String := if n < 10 then "0" ++ toString n else toString n

/-- Four-digit zero-padded decimal. -/
def pad4 (n : Nat) : String :=
  if n < 10 then "000" ++ toString n
  else if n < 100 then "00" ++ toString n
  else if n < 1000 then "0" ++ toString n
  else toString n

/-- chrono `to_rfc3339` of a whole-second UTC instant at non-negative Unix
time: `YYYY-MM-DDTHH:MM:SS+00:00`. -/
def rfc3339OfUnix (u : Nat) : String :=
  let days := u / 86400
  let secs := u % 86400
  let ymd := civilFromDays days
  pad4 ymd.1 ++ "-" ++ pad2 ymd.2.1 ++ "-" ++ pad2 ymd.2.2 ++ "T" ++
    pad2 (secs / 3600) ++ ":" ++ pad2 (secs % 3600 / 60) ++ ":" ++
    pad2 (secs % 60) ++ "+00:00"

/-- `cocoa_to_iso` (helpers.rs lines 418-429): negative Unix times are
clamped to the literal string `"1970-01-01T00:00:00Z"`; otherwise the
instant is rendered via chrono's `to_rfc3339`. -/
def cocoa_to_iso (cocoa_ns : Int) : String :=
  let unix_ts := cocoa_to_unix cocoa_ns
  if unix_ts < 0 then "1970-01-01T00:00:00Z"
  else rfc3339OfUnix unix_ts.toNat

/-! ### Decoder lemmas -/

theorem trimBytes_eq_rdropWhile (s : List Nat) :
    trimBytes s = List.rdropWhile wsByte (List.dropWhile wsByte s) := rfl

/-- `trim` is idempotent. -/
theorem trimBytes_idem (s : List Nat) : trimBytes (trimBytes s) = trimBytes s := by
  rw [trimBytes_eq_rdropWhile, trimBytes_eq_rdropWhile]
  have hp : List.rdropWhile wsByte (List.dropWhile wsByte s) <+:
      List.dropWhile wsByte s := List.rdropWhile_prefix _ _
  have h1 : List.dropWhile wsByte (List.rdropWhile wsByte (List.dropWhile wsByte s)) =
      List.rdropWhile wsByte (List.dropWhile wsByte s) := by
    rw [List.dropWhile_eq_self_iff]
    intro hl
    have hl' : 0 < (List.dropWhile wsByte s).length :=
      Nat.lt_of_lt_of_le hl hp.length_le
    have hg := hp.getElem hl
    have hd := List.dropWhile_get_zero_not wsByte s hl'
    simp only [List.get_eq_getElem] at hd ⊢
    rw [hg]
    exact hd
  rw [h1, List.rdropWhile_idempotent]

theorem firstNonBlank_some {cands : List (List Nat)} {t : List Nat}
    (h : firstNonBlank cands = some t) : t ≠ [] ∧ trimBytes t = t := by
  induction cands with
  | nil => simp [firstNonBlank] at h
  | cons c rest ih =>
    rw [firstNonBlank] at h
    split at h
    · rename_i hgood
      cases h
      refine ⟨?_, trimBytes_idem c⟩
      simpa using hgood
    · exact ih h

theorem dictFallback_some {d : List (List Nat × PValue)} {s : List Nat}
    (h : dictFallback d = some s) : s ≠ [] := by
  induction d with
  | nil => simp [dictFallback] at h
  | cons e rest ih =>
    obtain ⟨k, v⟩ := e
    cases v with
    | pstring str =>
      simp only [dictFallback] at h
      split at h
      · rename_i hcond
        simp only [Option.some.injEq] at h
        subst h
        intro habs
        rw [habs] at hcond
        simp at hcond
      · exact ih h
    | pdata a => simp only [dictFallback] at h; exact ih h
    | parray a => simp only [dictFallback] at h; exact ih h
    | pdict a => simp only [dictFallback] at h; exact ih h
    | pother => simp only [dictFallback] at h; exact ih h

theorem parse_bplist_some {fb : List Nat → Except Unit PValue} {blob t : List Nat}
    (h : parse_bplist fb blob = .ok (some t)) : t ≠ [] := by
  unfold parse_bplist at h
  split at h
  · simp at h
  · rename_i v
    split at h
    · rename_i dict
      split at h
      · rename_i objects hobj
        split at h
        · rename_i text heq
          simp only [Except.ok.injEq, Option.some.injEq] at h
          subst h
          exact (firstNonBlank_some heq).1
        · simp only [Except.ok.injEq] at h
          exact dictFallback_some h
      · simp only [Except.ok.injEq] at h
        exact dictFallback_some h
    · simp at h

theorem try_decode_text_some {b t : List Nat} (h : try_decode_text b = some t) :
    t ≠ [] ∧ trimBytes t = t := by
  unfold try_decode_text at h
  split at h
  · rename_i hcond
    cases h
    refine ⟨?_, trimBytes_idem b⟩
    simp only [Bool.and_eq_true] at hcond
    simpa using hcond.2
  · dsimp only at h
    split at h
    · rename_i hne
      cases h
      refine ⟨by simpa using hne, trimBytes_idem _⟩
    · exact absurd h (by simp)

theorem streamtyped_method1_some {blob t : List Nat}
    (h : streamtyped_method1 blob = some t) : t ≠ [] ∧ trimBytes t = t := by
  unfold streamtyped_method1 at h
  repeat' split at h
  all_goals simp only [Option.some.injEq, reduceCtorEq] at h
  all_goals (subst h; exact try_decode_text_some (by assumption))

theorem streamtyped_method2_some {blob t : List Nat}
    (h : streamtyped_method2 blob = some t) : t ≠ [] ∧ trimBytes t = t := by
  unfold streamtyped_method2 at h
  repeat' split at h
  all_goals simp only [Option.some.injEq, reduceCtorEq] at h
  all_goals (subst h; exact try_decode_text_some (by assumption))

theorem parse_streamtyped_some {blob t : List Nat}
    (h : parse_streamtyped blob = some t) : t ≠ [] ∧ trimBytes t = t := by
  unfold parse_streamtyped at h
  split at h
  · simp only [Option.some.injEq] at h
    subst h
    exact streamtyped_method1_some (by assumption)
  · exact streamtyped_method2_some h

/-- Invariant carried by the heuristic scan: any produced candidate is
trimmed and has length at least 2. -/
def goodBest (o : Option (List Nat)) : Prop :=
  ∀ t, o = some t → trimBytes t = t ∧ 2 ≤ t.length

theorem considerRun_good {best : Option (List Nat)} {run : List Nat}
    (hb : goodBest best) : goodBest (considerRun best run) := by
  unfold considerRun
  split
  · split
    · exact hb
    · dsimp only
      split
      · rename_i hlen
        split
        · split
          · intro t ht
            cases ht
            exact ⟨trimBytes_idem _, hlen⟩
          · exact hb
        · intro t ht
          cases ht
          exact ⟨trimBytes_idem _, hlen⟩
      · exact hb
  · exact hb

theorem scanRuns_good (l : List Nat) :
    ∀ best cur, goodBest best → goodBest (scanRuns best cur l) := by
  induction l with
  | nil => intro best cur hb; exact considerRun_good hb
  | cons b rest ih =>
    intro best cur hb
    rw [scanRuns]
    split
    · exact ih _ _ hb
    · exact ih _ _ (considerRun_good hb)

theorem extract_readable_text_some {blob t : List Nat}
    (h : extract_readable_text blob = some t) : trimBytes t = t ∧ 2 ≤ t.length :=
  scanRuns_good _ none [] (by intro t ht; cases ht) t h

theorem extract_fallbacks_isOk (blob : List Nat) :
    ∃ o, extract_fallbacks blob = .ok o := by
  unfold extract_fallbacks
  split
  · exact ⟨_, rfl⟩
  · exact ⟨_, rfl⟩

theorem extract_fallbacks_some {blob t : List Nat}
    (h : extract_fallbacks blob = .ok (some t)) : t ≠ [] ∧ trimBytes t = t := by
  unfold extract_fallbacks at h
  split at h
  · simp only [Except.ok.injEq, Option.some.injEq] at h
    subst h
    exact parse_streamtyped_some (by assumption)
  · simp only [Except.ok.injEq] at h
    obtain ⟨htrim, hlen⟩ := extract_readable_text_some h
    refine ⟨?_, htrim⟩
    intro habs
    rw [habs] at hlen
    simp at hlen

theorem extract_isOk (fromBytes : List Nat → Except Unit PValue)
    (blob : List Nat) : ∃ o, extract_text_from_blob fromBytes blob = .ok o := by
  unfold extract_text_from_blob
  split
  · exact ⟨none, rfl⟩
  · split
    · split
      · exact ⟨_, rfl⟩
      · exact extract_fallbacks_isOk blob
    · exact extract_fallbacks_isOk blob

theorem extract_some_cases {fromBytes : List Nat → Except Unit PValue}
    {blob t : List Nat}
    (h : extract_text_from_blob fromBytes blob = .ok (some t)) :
    (∃ i, find_subsequence blob (strBytes "bplist") = some i ∧
        parse_bplist fromBytes (blob.drop i) = .ok (some t)) ∨
    extract_fallbacks blob = .ok (some t) := by
  unfold extract_text_from_blob at h
  split at h
  · simp at h
  · split at h
    · rename_i i hfind
      split at h
      · rename_i text hparse
        simp only [Except.ok.injEq, Option.some.injEq] at h
        subst h
        exact Or.inl ⟨i, hfind, hparse⟩
      · exact Or.inr h
    · exact Or.inr h

theorem extract_not_bplist {fromBytes : List Nat → Except Unit PValue}
    {blob t : List Nat}
    (h : extract_text_from_blob fromBytes blob = .ok (some t))
    (hnb : bplistProduced fromBytes blob = false) :
    extract_fallbacks blob = .ok (some t) := by
  rcases extract_some_cases h with ⟨i, hfind, hparse⟩ | hf
  · exfalso
    unfold bplistProduced at hnb
    rw [hfind] at hnb
    simp only [hparse] at hnb
    exact absurd hnb (by simp)
  · exact hf

/-! ### Claim C1 -/

/-- C1 (amended): for every byte blob — and every outcome of the external
bplist parser — `extract_text_from_blob` terminates and returns `Ok`, never
an error; its result is `None` or a non-empty string.  The string equals its
own trim whenever the keyed-archive strategy is not the producer, and the
keyed-archive object-table scan also only produces trimmed strings; only the
keyed-archive top-level dictionary fallback can return a string that is not
equal to its own trim (see the counterexample). -/
theorem c1_decode_total_nonempty_trimmed
    (fromBytes : List Nat → Except Unit PValue) (blob : List Nat) :
    (∃ o, extract_text_from_blob fromBytes blob = .ok o) ∧
    (∀ t, extract_text_from_blob fromBytes blob = .ok (some t) → t ≠ []) ∧
    (∀ t, extract_text_from_blob fromBytes blob = .ok (some t) →
      bplistProduced fromBytes blob = false → trimBytes t = t) ∧
    (∀ objs t, firstNonBlank (collectCandidates objs) = some t →
      trimBytes t = t) := by
  refine ⟨extract_isOk _ _, ?_, ?_, ?_⟩
  · intro t ht
    rcases extract_some_cases ht with ⟨i, hfind, hparse⟩ | hf
    · exact parse_bplist_some hparse
    · exact (extract_fallbacks_some hf).1
  · intro t ht hnb
    exact (extract_fallbacks_some (extract_not_bplist ht hnb)).2
  · intro objs t h
    exact (firstNonBlank_some h).2

/-- Witness for C1: the amended theorem applied to the synthetic
stream-typed blob with a bplist parser that always fails. -/
theorem c1_decode_total_nonempty_trimmed_witness :
    strBytes "Hello" ≠ [] ∧ trimBytes (strBytes "Hello") = strBytes "Hello" := by
  have h := c1_decode_total_nonempty_trimmed (fun _ => .error ()) c7blob
  exact ⟨h.2.1 (strBytes "Hello") (by rfl), h.2.2.1 (strBytes "Hello") (by rfl) (by rfl)⟩

/-- C1 counterexample: on a blob carrying a `bplist` marker whose parse
yields the dictionary `{"a": " x "}` (expressible as a real binary plist),
`extract_text_from_blob` returns `Ok (Some " x ")` via the top-level
dictionary fallback — a string that is not equal to its own trim (and is
whitespace-padded), contradicting the claim as stated. -/
theorem c1_counterexample :
    extract_text_from_blob fbWs (strBytes "bplist00") = .ok (some (strBytes " x ")) ∧
    trimBytes (strBytes " x ") ≠ strBytes " x " :=
  ⟨by rfl, by decide⟩

/-! ### Claim C6 -/

/-- C6: whenever the keyed-archive strategy succeeds with a (non-empty)
result — a `bplist` marker is found at some offset and parsing from it
yields text — and the stream-typed strategy would also succeed, the decoder
returns the keyed-archive result: strategy 1 wins over strategy 2. -/
theorem c6_keyed_archive_priority
    (fromBytes : List Nat → Except Unit PValue) (blob : List Nat) (i : Nat)
    (t u : List Nat) (hne : blob ≠ [])
    (hfind : find_subsequence blob (strBytes "bplist") = some i)
    (hparse : parse_bplist fromBytes (blob.drop i) = .ok (some t))
    (_htne : t ≠ []) (_hstream : parse_streamtyped blob = some u) :
    extract_text_from_blob fromBytes blob = .ok (some t) := by
  have hne' : blob.isEmpty = false := by
    cases blob
    · exact absurd rfl hne
    · rfl
  unfold extract_text_from_blob
  rw [hne']
  simp only [Bool.false_eq_true, if_false, hfind, hparse]

/-- Witness for C6: a blob that opens with a `bplist` marker whose parse
yields `"Hi!"` from the object table, and also embeds a stream-typed payload
decoding to `"Hello"`; the decoder returns `"Hi!"`. -/
theorem c6_keyed_archive_priority_witness :
    extract_text_from_blob fbHi c6blob = .ok (some (strBytes "Hi!")) :=
  c6_keyed_archive_priority fbHi c6blob 0 (strBytes "Hi!") (strBytes "Hello")
    (by decide) (by decide) (by rfl) (by decide) (by decide)

/-! ### Claim C7 -/

/-- C7: the synthetic stream-typed blob — `NSString` marker, control bytes,
a `'+'` within the bounded window, one length byte, the bytes `"Hello"`,
and the terminators `0x86 0x84` — decodes to `Some "Hello")`, for any
behaviour of the external bplist parser (which is never consulted, as the
blob has no `bplist` marker). -/
theorem c7_streamtyped_hello (fromBytes : List Nat → Except Unit PValue) :
    extract_text_from_blob fromBytes c7blob = .ok (some (strBytes "Hello")) := by
  rfl

/-! ### Protocol lemmas -/

/-- The unknown-method arm of `dispatch`. -/
theorem dispatch_unknown (svc : DaemonService) (method : String)
    (params : List (String × Json)) (h : ¬ method ∈ knownMethods) :
    svc.dispatch method params = .error ("Unknown method: " ++ method) := by
  unfold DaemonService.dispatch
  split
  all_goals simp_all [knownMethods]

/-- `handle_connection` on a non-blank line: read, parse, dispatch. -/
theorem handle_connection_of_nonblank {line : String}
    (hne : lineIsBlank line = false)
    (parseRequest : String → Except Unit Request) (svc : DaemonService)
    (ms : Int) :
    handle_connection parseRequest svc ms line =
      (match parseRequest line with
       | .error u => .error u
       | .ok request =>
         match svc.dispatch request.method request.params with
         | .ok result => .ok (some (Response.success request.id result ms))
         | .error e =>
           .ok (some (Response.errorResponse request.id "ERROR" e ms))) := by
  unfold handle_connection
  rw [hne]
  rfl

/-- The health arm of `dispatch` always succeeds. -/
theorem dispatch_health (svc : DaemonService) (params : List (String × Json)) :
    svc.dispatch "health" params = .ok
      (.obj [("pid", .num (svc.pid : Int)),
             ("started_at", .str svc.started_at),
             ("version", .str "v1"),
             ("contacts_loaded", .num (svc.contactsLoaded : Int))]) := rfl

/-! ### Claim C2 -/

/-- C2: a `Response` built by `Response::success` has `ok = true`,
`result = Some`, `error = None`; one built by `Response::error` has
`ok = false`, `result = None`, `error = Some` — exactly one of
result/error populated, gated by the `ok` flag.  The shape survives the
NDJSON encode/decode round trip: a success response with non-null result
decodes back with `error` absent (and the same result), an error response
decodes back with `result` absent. -/
theorem c2_response_shape_roundtrip (rid : String) (res : Json)
    (code msg : String) (ms : Int) (hres : res ≠ .null) :
    (Response.success rid res ms).ok = true ∧
    (Response.success rid res ms).result = some res ∧
    (Response.success rid res ms).error = none ∧
    (Response.errorResponse rid code msg ms).ok = false ∧
    (Response.errorResponse rid code msg ms).result = none ∧
    (Response.errorResponse rid code msg ms).error =
      some { code := code, message := msg, details := none } ∧
    Response.fromJson (Response.success rid res ms).toJson =
      .ok (Response.success rid res ms) ∧
    Response.fromJson (Response.errorResponse rid code msg ms).toJson =
      .ok (Response.errorResponse rid code msg ms) := by
  refine ⟨rfl, rfl, rfl, rfl, rfl, rfl, ?_, rfl⟩
  cases res with
  | null => exact absurd rfl hres
  | bool b => rfl
  | num n => rfl
  | str s => rfl
  | arr a => rfl
  | obj o => rfl

/-- Witness for C2 at a concrete success and error response. -/
theorem c2_response_shape_roundtrip_witness :
    Response.fromJson (Response.success "1" (.obj []) 0).toJson =
      .ok (Response.success "1" (.obj []) 0) ∧
    (Response.success "1" (.obj []) 0).error = none ∧
    (Response.errorResponse "1" "ERROR" "boom" 0).result = none := by
  have h := c2_response_shape_roundtrip "1" (.obj []) "ERROR" "boom" 0
    (fun hh => Json.noConfusion hh)
  exact ⟨h.2.2.2.2.2.2.1, h.2.2.1, h.2.2.2.2.1⟩

/-! ### Claim C3 -/

/-- C3 counterexample: `lineMalformed` is a non-empty request line that
fails to decode (serde_json rejects the bare identifier `health`), and a
request id — `"42"` — is plainly salvageable from it; yet the server closes
the connection (`?` at server.rs line 89) and writes nothing back,
contradicting the claim that a salvaged id yields a generic error
response. -/
theorem c3_counterexample :
    salvageId lineMalformed = some "42" ∧
    lineIsBlank lineMalformed = false ∧
    parseDemo lineMalformed = .error () ∧
    handle_connection parseDemo svcDemo 0 lineMalformed = .error () := by
  refine ⟨?_, rfl, rfl, rfl⟩
  rfl

/-- C3 (amended): for every connection whose request line is non-empty but
fails to decode as a `Request`, the server closes the connection without
writing any response — no id salvage is attempted, whether or not an id
could be recovered from the line. -/
theorem c3_decode_failure_closes (parseRequest : String → Except Unit Request)
    (svc : DaemonService) (ms : Int) (line : String)
    (hne : lineIsBlank line = false) (hfail : parseRequest line = .error ()) :
    handle_connection parseRequest svc ms line = .error () := by
  rw [handle_connection_of_nonblank hne, hfail]

/-- Witness for the amended C3 at the malformed line. -/
theorem c3_decode_failure_closes_witness :
    handle_connection parseDemo svcDemo 0 lineMalformed = .error () :=
  c3_decode_failure_closes parseDemo svcDemo 0 lineMalformed rfl (by rfl)

/-! ### Claim C4 -/

/-- C4 counterexample: the response to an unknown method carries the error
code `"ERROR"` — the very same code the server attaches to a row-source
failure of a recognized method (`analytics` here) — so the code is the
generic shared one, not a distinct `UnknownMethod`-class code.  (Both are
produced by the single `Response::error(id, "ERROR", ..)` call at
server.rs lines 98-103.) -/
theorem c4_counterexample :
    (∃ msg, handle_connection parseDemo svcDemo 0 lineUnknown =
      .ok (some (Response.errorResponse "2" "ERROR" msg 0))) ∧
    (∃ msg, handle_connection parseDemo svcDemo 0 lineAnalytics =
      .ok (some (Response.errorResponse "3" "ERROR" msg 0))) :=
  ⟨⟨"Unknown method: no-such-method", rfl⟩, ⟨"row source failure", rfl⟩⟩

/-- C4 (amended): for every method name outside the nine recognized ones
and every parameter map, `dispatch` returns an error — it is a total
function, never a panic — whose message is the stable string
`"Unknown method: "` followed by the method name; in the response this
surfaces under the generic stable code `"ERROR"` shared by all
response-level failures, not under a distinct `UnknownMethod` code. -/
theorem c4_unknown_method_error (svc : DaemonService) (method : String)
    (params : List (String × Json)) (h : ¬ method ∈ knownMethods) :
    svc.dispatch method params = .error ("Unknown method: " ++ method) ∧
    (∀ (parseRequest : String → Except Unit Request) (ms : Int)
       (line : String) (req : Request),
      lineIsBlank line = false → parseRequest line = .ok req →
      req.method = method → req.params = params →
      handle_connection parseRequest svc ms line =
        .ok (some (Response.errorResponse req.id "ERROR"
          ("Unknown method: " ++ method) ms))) := by
  refine ⟨dispatch_unknown svc method params h, ?_⟩
  intro parseRequest ms line req hne hok hm hp
  rw [handle_connection_of_nonblank hne, hok]
  dsimp only
  rw [hm, hp, dispatch_unknown svc method params h]

/-- Witness for the amended C4 at the method `"no-such-method"`. -/
theorem c4_unknown_method_error_witness :
    svcDemo.dispatch "no-such-method" [] =
      .error ("Unknown method: " ++ "no-such-method") ∧
    handle_connection parseDemo svcDemo 0 lineUnknown =
      .ok (some (Response.errorResponse "2" "ERROR"
        ("Unknown method: " ++ "no-such-method") 0)) := by
  have h := c4_unknown_method_error svcDemo "no-such-method" [] (by decide)
  exact ⟨h.1, h.2 parseDemo 0 lineUnknown
    { id := "2", v := 1, method := "no-such-method", params := [] }
    rfl (by rfl) rfl rfl⟩

/-! ### Claim C5 -/

/-- C5: for every raw store timestamp, the converted Unix time is exactly
`raw.tdiv 1e9 + 978307200` (Rust `i64` arithmetic, division truncating
toward zero); and the native-epoch integer for 2025-01-01T00:00:00Z,
757382400000000000 ns, converts to Unix second 1735689600 and to an
ISO-8601 string beginning `"2025-01-01"`. -/
theorem c5_timestamp_conversion :
    (∀ cocoa_ns : Int,
      cocoa_to_unix cocoa_ns = cocoa_ns.tdiv 1000000000 + 978307200) ∧
    cocoa_to_unix 757382400000000000 = 1735689600 ∧
    cocoa_to_iso 757382400000000000 = "2025-01-01T00:00:00+00:00" ∧
    ("2025-01-01".toList).isPrefixOf
      (cocoa_to_iso 757382400000000000).toList = true := by
  refine ⟨fun _ => rfl, by decide, ?_, ?_⟩
  · rfl
  · decide

/-! ### Claim C8 -/

/-- C8: `recent` with an empty parameter map uses the documented defaults
`days = 7` and `limit = 20` (calling it with the empty map is the same as
calling it with those explicit values); whenever `"limit"` is present but
non-numeric or negative (`as_u64` yields nothing), the limit falls back to
the default 20; and such a malformed limit never causes an error — the
handler errors only if the row query itself does. -/
theorem c8_recent_defaults (svc : DaemonService)
    (params : List (String × Json)) (v : Json)
    (hv : jGet params "limit" = some v) (hbad : jAsU64 v = none) :
    recentDays [] = 7 ∧ recentLimit [] = 20 ∧
    svc.recent [] = svc.recent [("days", Json.num 7), ("limit", Json.num 20)] ∧
    recentLimit params = 20 ∧
    (∀ rows, svc.queryRecent (days_ago_cocoa svc.nowSecs (recentDays params)) 20
        = .ok rows → ∃ j, svc.recent params = .ok j) := by
  have hlim : recentLimit params = 20 := by
    unfold recentLimit
    rw [hv]
    simp [hbad]
  refine ⟨rfl, rfl, rfl, hlim, ?_⟩
  intro rows hq
  unfold DaemonService.recent
  dsimp only
  rw [hlim, hq]
  exact ⟨_, rfl⟩

/-- Witness for C8 at a negative and therefore non-`u64` limit. -/
theorem c8_recent_defaults_witness :
    recentLimit [("limit", Json.num (-5))] = 20 ∧
    (∃ j, svcDemo.recent [("limit", Json.num (-5))] = .ok j) := by
  have h := c8_recent_defaults svcDemo [("limit", Json.num (-5))]
    (Json.num (-5)) rfl rfl
  exact ⟨h.2.2.2.1, h.2.2.2.2 [] rfl⟩

/-! ### Claim C9 -/

/-- C9: across a trace of sequential connections served by the
single-threaded accept loop, each connection's response echoes the id of
its own request — a health request gets a success response under its id, an
unknown-method request gets an error response under its id — and no
connection's outcome terminates the loop: the trace of outcomes has one
entry per connection, each computed independently, so the server remains
alive to serve a subsequent connection. -/
theorem c9_sequential_connections
    (parseRequest : String → Except Unit Request) (svc : DaemonService)
    (ms : Int) (l1 l2 l3 : String) (r1 r2 r3 : Request)
    (h1t : lineIsBlank l1 = false) (h1 : parseRequest l1 = .ok r1)
    (h1m : r1.method = "health")
    (h2t : lineIsBlank l2 = false) (h2 : parseRequest l2 = .ok r2)
    (h2m : ¬ r2.method ∈ knownMethods)
    (h3t : lineIsBlank l3 = false) (h3 : parseRequest l3 = .ok r3)
    (h3m : r3.method = "health") :
    (∃ hj, handle_connection parseRequest svc ms l1 =
      .ok (some (Response.success r1.id hj ms))) ∧
    handle_connection parseRequest svc ms l2 =
      .ok (some (Response.errorResponse r2.id "ERROR"
        ("Unknown method: " ++ r2.method) ms)) ∧
    (∃ hj, handle_connection parseRequest svc ms l3 =
      .ok (some (Response.success r3.id hj ms))) ∧
    serveConnections parseRequest svc ms [l1, l2, l3] =
      [handle_connection parseRequest svc ms l1,
       handle_connection parseRequest svc ms l2,
       handle_connection parseRequest svc ms l3] ∧
    (∀ lines : List String,
      (serveConnections parseRequest svc ms lines).length = lines.length) := by
  refine ⟨?_, ?_, ?_, rfl, fun lines => List.length_map lines _⟩
  · refine ⟨.obj [("pid", .num (svc.pid : Int)),
        ("started_at", .str svc.started_at), ("version", .str "v1"),
        ("contacts_loaded", .num (svc.contactsLoaded : Int))], ?_⟩
    rw [handle_connection_of_nonblank h1t, h1]
    dsimp only
    rw [h1m, dispatch_health]
  · rw [handle_connection_of_nonblank h2t, h2]
    dsimp only
    rw [dispatch_unknown svc r2.method r2.params h2m]
  · refine ⟨.obj [("pid", .num (svc.pid : Int)),
        ("started_at", .str svc.started_at), ("version", .str "v1"),
        ("contacts_loaded", .num (svc.contactsLoaded : Int))], ?_⟩
    rw [handle_connection_of_nonblank h3t, h3]
    dsimp only
    rw [h3m, dispatch_health]

/-- Witness for C9: a health request with id `"1"`, then an unknown-method
request with id `"2"`, then a further health request — all three
connections served, ids echoed. -/
theorem c9_sequential_connections_witness :
    (serveConnections parseDemo svcDemo 0
      [lineHealth, lineUnknown, lineHealth4]).length = 3 ∧
    handle_connection parseDemo svcDemo 0 lineUnknown =
      .ok (some (Response.errorResponse "2" "ERROR"
        ("Unknown method: " ++ "no-such-method") 0)) := by
  have h := c9_sequential_connections parseDemo svcDemo 0
    lineHealth lineUnknown lineHealth4
    { id := "1", v := 1, method := "health", params := [] }
    { id := "2", v := 1, method := "no-such-method", params := [] }
    { id := "4", v := 1, method := "health", params := [] }
    rfl (by rfl) rfl
    rfl (by rfl) (by decide)
    rfl (by rfl) rfl
  exact ⟨h.2.2.2.2 [lineHealth, lineUnknown, lineHealth4], h.2.1⟩

/-! ### Claim C10 -/

/-- C10: every Cocoa timestamp whose converted Unix time is negative (an
instant before 1970-01-01T00:00:00Z) renders as exactly the string
`"1970-01-01T00:00:00Z"` — `cocoa_to_iso` clamps at the Unix epoch instead
of failing or producing a pre-epoch date. -/
theorem c10_pre_epoch_clamped (cocoa_ns : Int)
    (h : cocoa_to_unix cocoa_ns < 0) :
    cocoa_to_iso cocoa_ns = "1970-01-01T00:00:00Z" := by
  unfold cocoa_to_iso
  rw [if_pos h]

/-- Witness for C10 one nanosecond-second before the epoch. -/
theorem c10_pre_epoch_clamped_witness :
    cocoa_to_iso (-978307201000000000) = "1970-01-01T00:00:00Z" :=
  c10_pre_epoch_clamped (-978307201000000000) (by decide)

end WEF
